import Mathlib

/-!
# Template service (`pkg/service/v1/template-service.go`)

A shallow embedding of the five gRPC handlers of the template service and of
the version guard they share.  The document store, the clock and the UUID
generator are external collaborators: they are represented by an environment
of oracles (`Env`), and every call a handler makes to the store is recorded,
with its arguments and its result, in a trace of `Event`s.
-/

set_option autoImplicit false

namespace TemplateService

/-! ## Status codes and errors (`google.golang.org/grpc/codes`, `status`) -/

/-- The gRPC status codes, in the order of `codes.Code`. -/
inductive Code where
  | OK | Canceled | Unknown | InvalidArgument | DeadlineExceeded | NotFound
  | AlreadyExists | PermissionDenied | ResourceExhausted | FailedPrecondition
  | Aborted | OutOfRange | Unimplemented | Internal | Unavailable | DataLoss
  | Unauthenticated
  deriving DecidableEq

/-- An error built by `status.Error` / `status.Errorf`: a code and a message. -/
structure Status where
  code : Code
  message : String
  deriving DecidableEq

/-! ## Contexts -/

/-- The contexts a store call can receive: the fresh `context.TODO()`, or a
request context handed to the handler by the RPC runtime (identified by a
number). -/
inductive Context where
  | todo
  | request (id : Nat)
  deriving DecidableEq

/-! ## Wire messages (`pkg/api/v1`) -/

/-- A protobuf timestamp: seconds and nanoseconds. -/
structure Timestamp where
  seconds : Int
  nanos : Int
  deriving DecidableEq

/-- The message `v1.Template`.  The item type is declared by the wire schema
and is a parameter here; the two timestamps are pointers and may be nil. -/
structure Template (Item : Type) where
  id : String
  items : List Item
  created : Option Timestamp
  updated : Option Timestamp
  deriving DecidableEq

/-- The message `v1.CreateRequest`; `template` is a pointer and may be nil. -/
structure CreateRequest (Item : Type) where
  api : String
  template : Option (Template Item)

/-- The message `v1.CreateResponse`. -/
structure CreateResponse where
  api : String
  id : String
  deriving DecidableEq

/-- The message `v1.ReadRequest`. -/
structure ReadRequest where
  api : String
  id : String

/-- The message `v1.ReadResponse`. -/
structure ReadResponse (Item : Type) where
  api : String
  template : Template Item
  deriving DecidableEq

/-- The message `v1.UpdateRequest`; `template` is a pointer and may be nil. -/
structure UpdateRequest (Item : Type) where
  api : String
  template : Option (Template Item)

/-- The message `v1.UpdateResponse`; `updated` is the modified count. -/
structure UpdateResponse where
  api : String
  updated : Int
  deriving DecidableEq

/-- The message `v1.DeleteRequest`. -/
structure DeleteRequest where
  api : String
  id : String

/-- The message `v1.DeleteResponse`; `deleted` is the deleted count. -/
structure DeleteResponse where
  api : String
  deleted : Int
  deriving DecidableEq

/-- The message `v1.ListRequest`. -/
structure ListRequest where
  api : String

/-- The message `v1.ListResponse`: `data` is a slice of pointers to templates,
here addresses of cells of the heap returned with the response. -/
structure ListResponse where
  api : String
  data : List Nat
  deriving DecidableEq

/-! ## BSON documents (`go.mongodb.org/mongo-driver/bson`) -/

/-- The values the handlers put in a field of a document: nil, a string, the
item sequence of a template, or a timestamp. -/
inductive Scalar (Item : Type) where
  | null
  | str (s : String)
  | items (xs : List Item)
  | time (t : Timestamp)
  deriving DecidableEq

/-- A value of a `bson.E`: a scalar, or an inner `bson.D` of scalars. -/
inductive Value (Item : Type) where
  | scalar (v : Scalar Item)
  | doc (d : List (String × Scalar Item))
  deriving DecidableEq

/-- The ordered document `bson.D`: a sequence of key/value elements. -/
abbrev D (Item : Type) := List (String × Value Item)

/-- A stored document, as the store sees it: named fields with their values. -/
abbrev Doc (Item : Type) := List (String × Scalar Item)

/-- The value of field `k` of a stored document. -/
def Doc.lookup {Item : Type} (k : String) : Doc Item → Option (Scalar Item)
  | [] => none
  | (k', v) :: rest => if k' = k then some v else Doc.lookup k rest

/-- Assign field `k` of a stored document: replace its value, or add it. -/
def Doc.setField {Item : Type} (k : String) (v : Scalar Item) : Doc Item → Doc Item
  | [] => [(k, v)]
  | (k', v') :: rest =>
    if k' = k then (k', v) :: rest else (k', v') :: Doc.setField k v rest

/-- The store's `$set` operator: assign every field of `set`, in order. -/
def Doc.applySet {Item : Type} (set : Doc Item) (d : Doc Item) : Doc Item :=
  set.foldl (fun acc kv => Doc.setField kv.1 kv.2 acc) d

/-- The store applying an update document to a stored document: each `$set`
element is applied; the handlers issue no other operator. -/
def Doc.applyUpdate {Item : Type} (update : D Item) (d : Doc Item) : Doc Item :=
  update.foldl
    (fun acc el =>
      match el with
      | (op, Value.doc set) => if op = "$set" then Doc.applySet set acc else acc
      | (_, Value.scalar _) => acc)
    d

/-- The fields an update document assigns through `$set`, in order. -/
def assignedFields {Item : Type} (update : D Item) : List String :=
  update.foldr
    (fun el acc =>
      match el with
      | (op, Value.doc set) => if op = "$set" then set.map Prod.fst ++ acc else acc
      | (_, Value.scalar _) => acc)
    []

/-! ## The environment: store, clock and UUID generator -/

/-- What an opened cursor holds: for each document it yields, the result of
decoding it into a template (the error text when decoding fails), then the
terminal error `cur.Err()` reported once `Next` has returned false. -/
structure Cursor (Item : Type) where
  docs : List (Except String (Template Item))
  err : Option String

/-- A `*mongo.Collection`: the result of each store call from its arguments
(an error is given by its text, `err.Error()`).  `findOne` is
`FindOne(...).Decode(&p)`; `updateOne` and `deleteOne` give the modified and
the deleted count. -/
structure Collection (Item : Type) where
  insertOne : Context → Template Item → Option String
  findOne : Context → D Item → Except String (Template Item)
  updateOne : Context → D Item → D Item → Except String Int
  deleteOne : Context → D Item → Except String Int
  find : Context → D Item → Except String (Cursor Item)

/-- A `*mongo.Client`: the collection of each database and collection name. -/
structure Client (Item : Type) where
  collection : String → String → Collection Item

/-- The ambient services of one handler call: `newV1` is the string of the
UUID that `uuid.NewV1()` generates, `timestampNow k` the result of the `k`-th
call of `ptypes.TimestampNow()`. -/
structure Env where
  newV1 : String
  timestampNow : Nat → Timestamp

/-- A call made to the store, with its arguments and its result. -/
inductive Event (Item : Type) where
  | insertOne (ctx : Context) (doc : Template Item) (res : Option String)
  | findOne (ctx : Context) (filter : D Item) (res : Except String (Template Item))
  | updateOne (ctx : Context) (filter : D Item) (update : D Item) (res : Except String Int)
  | deleteOne (ctx : Context) (filter : D Item) (res : Except String Int)
  | find (ctx : Context) (filter : D Item) (res : Option String)
  | next (ctx : Context) (res : Bool)
  | decode (res : Except String (Template Item))
  | err (res : Option String)
  | close (ctx : Context)

/-- The error text with which a store call failed, if it failed. -/
def Event.failure {Item : Type} : Event Item → Option String
  | Event.insertOne _ _ res => res
  | Event.findOne _ _ (Except.error e) => some e
  | Event.findOne _ _ (Except.ok _) => none
  | Event.updateOne _ _ _ (Except.error e) => some e
  | Event.updateOne _ _ _ (Except.ok _) => none
  | Event.deleteOne _ _ (Except.error e) => some e
  | Event.deleteOne _ _ (Except.ok _) => none
  | Event.find _ _ res => res
  | Event.next _ _ => none
  | Event.decode (Except.error e) => some e
  | Event.decode (Except.ok _) => none
  | Event.err res => res
  | Event.close _ => none

/-- How a handler call ends: it returns the pair (response, error) of Go, each
possibly nil, or it panics on a nil pointer. -/
inductive Outcome (α : Type) where
  | returned (resp : Option α) (err : Option Status)
  | panicked

/-- A handler call: how it ended, the store calls it made, in order, and the
heap cells it allocated for the templates its response points to. -/
structure Run (Item : Type) (α : Type) where
  outcome : Outcome α
  trace : List (Event Item)
  heap : List (Template Item)

/-! ## The service -/

/-- The constant `apiVersion`. -/
def apiVersion : String := "v1"

/-- The struct `templateServiceServer`. -/
structure templateServiceServer (Item : Type) where
  db : Client Item

/-- The method `checkAPI`: `none` is Go's nil error.  `len(api)` is the length
of the string in bytes. -/
def templateServiceServer.checkAPI {Item : Type} (_s : templateServiceServer Item)
    (api : String) : Option Status :=
  if api.utf8ByteSize > 0 then
    if apiVersion != api then
      some ⟨Code.Unimplemented,
        "unsupported API version: service implements API version '" ++ apiVersion ++
          "', but asked for '" ++ api ++ "'"⟩
    else none
  else none

/-- The handler `Create`. -/
def templateServiceServer.Create {Item : Type} (s : templateServiceServer Item) (env : Env)
    (ctx : Context) (req : CreateRequest Item) : Run Item CreateResponse :=
  match s.checkAPI req.api with
  | some err => ⟨Outcome.returned none (some err), [], []⟩
  | none =>
    let c := s.db.collection "template" "template"
    let templateId := env.newV1
    match req.template with
    | none => ⟨Outcome.panicked, [], []⟩
    | some t =>
      let p : Template Item :=
        { id := templateId
          items := t.items
          created := some (env.timestampNow 0)
          updated := some (env.timestampNow 1) }
      match c.insertOne ctx p with
      | some e =>
        ⟨Outcome.returned none
            (some ⟨Code.Unknown, "failed to insert into Template.template-> " ++ e⟩),
          [Event.insertOne ctx p (some e)], []⟩
      | none =>
        ⟨Outcome.returned (some { api := apiVersion, id := templateId }) none,
          [Event.insertOne ctx p none], []⟩

/-- The handler `Read`. -/
def templateServiceServer.Read {Item : Type} (s : templateServiceServer Item) (_env : Env)
    (_ctx : Context) (req : ReadRequest) : Run Item (ReadResponse Item) :=
  match s.checkAPI req.api with
  | some err => ⟨Outcome.returned none (some err), [], []⟩
  | none =>
    let c := s.db.collection "template" "template"
    let filter : D Item := [("id", Value.scalar (Scalar.str req.id))]
    match c.findOne Context.todo filter with
    | Except.error e =>
      ⟨Outcome.returned none (some ⟨Code.Unknown, "failed to find document-> " ++ e⟩),
        [Event.findOne Context.todo filter (Except.error e)], []⟩
    | Except.ok p =>
      ⟨Outcome.returned (some { api := apiVersion, template := p }) none,
        [Event.findOne Context.todo filter (Except.ok p)], []⟩

/-- The handler `Update`. -/
def templateServiceServer.Update {Item : Type} (s : templateServiceServer Item) (env : Env)
    (_ctx : Context) (req : UpdateRequest Item) : Run Item UpdateResponse :=
  match s.checkAPI req.api with
  | some err => ⟨Outcome.returned none (some err), [], []⟩
  | none =>
    let c := s.db.collection "template" "template"
    match req.template with
    | none => ⟨Outcome.panicked, [], []⟩
    | some t =>
      let filter : D Item := [("id", Value.scalar (Scalar.str t.id))]
      let update : D Item :=
        [("$set", Value.doc
            [("items", Scalar.items t.items),
             ("updated", Scalar.time (env.timestampNow 0))])]
      match c.updateOne Context.todo filter update with
      | Except.error e =>
        ⟨Outcome.returned none (some ⟨Code.Unknown, "failed to update document-> " ++ e⟩),
          [Event.updateOne Context.todo filter update (Except.error e)], []⟩
      | Except.ok modifiedCount =>
        let u := modifiedCount
        ⟨Outcome.returned (some { api := apiVersion, updated := u }) none,
          [Event.updateOne Context.todo filter update (Except.ok modifiedCount)], []⟩

/-- The handler `Delete`. -/
def templateServiceServer.Delete {Item : Type} (s : templateServiceServer Item) (_env : Env)
    (_ctx : Context) (req : DeleteRequest) : Run Item DeleteResponse :=
  match s.checkAPI req.api with
  | some err => ⟨Outcome.returned none (some err), [], []⟩
  | none =>
    let c := s.db.collection "template" "template"
    let filter : D Item := [("id", Value.scalar (Scalar.str req.id))]
    match c.deleteOne Context.todo filter with
    | Except.error e =>
      ⟨Outcome.returned none (some ⟨Code.Unknown, "failed to delete document-> " ++ e⟩),
        [Event.deleteOne Context.todo filter (Except.error e)], []⟩
    | Except.ok deletedCount =>
      let d := deletedCount
      ⟨Outcome.returned (some { api := apiVersion, deleted := d }) none,
        [Event.deleteOne Context.todo filter (Except.ok deletedCount)], []⟩

/-- The zero value of `v1.Template`, the content of a fresh `var elem`. -/
def Template.zero {Item : Type} : Template Item :=
  { id := "", items := [], created := none, updated := none }

/-- The state of the loop of `List`: the heap cells allocated for the `elem`
variables, the slice `list` of pointers to them, and the store calls so far. -/
structure LoopState (Item : Type) where
  heap : List (Template Item)
  list : List Nat
  trace : List (Event Item)

/-- The loop `for cur.Next(context.TODO()) { ... }` of `List` over the
documents the cursor still holds.  Each iteration allocates a fresh `elem`,
decodes the current document into it and appends its address to `list`.  The
result is the final state and, when a decode failed, its error text (the
handler then returns at once). -/
def listLoop {Item : Type} :
    List (Except String (Template Item)) → LoopState Item → LoopState Item × Option String
  | [], st =>
    ({ st with trace := st.trace ++ [Event.next Context.todo false] }, none)
  | d :: rest, st =>
    let elem := st.heap.length
    let trace := st.trace ++ [Event.next Context.todo true, Event.decode d]
    match d with
    | Except.error e =>
      ({ heap := st.heap ++ [Template.zero], list := st.list, trace := trace }, some e)
    | Except.ok t =>
      listLoop rest { heap := st.heap ++ [t], list := st.list ++ [elem], trace := trace }

/-- The handler `List`. -/
def templateServiceServer.List {Item : Type} (s : templateServiceServer Item) (_env : Env)
    (_ctx : Context) (req : ListRequest) : Run Item ListResponse :=
  match s.checkAPI req.api with
  | some err => ⟨Outcome.returned none (some err), [], []⟩
  | none =>
    let c := s.db.collection "template" "template"
    let filter : D Item := [("", Value.scalar Scalar.null)]
    match c.find Context.todo filter with
    | Except.error e =>
      ⟨Outcome.returned none
          (some ⟨Code.Unknown, "failed to find documents in Template.template-> " ++ e⟩),
        [Event.find Context.todo filter (some e)], []⟩
    | Except.ok cur =>
      match listLoop cur.docs
          { heap := [], list := [], trace := [Event.find Context.todo filter none] } with
      | (st, some e) =>
        ⟨Outcome.returned none (some ⟨Code.Unknown, "failed to decode document-> " ++ e⟩),
          st.trace, st.heap⟩
      | (st, none) =>
        match cur.err with
        | some e =>
          ⟨Outcome.returned none (some ⟨Code.Unknown, "failed reading documents-> " ++ e⟩),
            st.trace ++ [Event.err (some e)], st.heap⟩
        | none =>
          ⟨Outcome.returned (some { api := apiVersion, data := st.list }) none,
            st.trace ++ [Event.err none, Event.close Context.todo], st.heap⟩

/-- The templates a slice of pointers refers to, read from the heap. -/
def deref {Item : Type} (heap : List (Template Item)) (ptrs : List Nat) :
    List (Option (Template Item)) :=
  ptrs.map (fun a => heap[a]?)

/-- The context each store call of a trace was given; `none` for a step that
takes no context. -/
def Event.context {Item : Type} : Event Item → Option Context
  | Event.insertOne ctx _ _ => some ctx
  | Event.findOne ctx _ _ => some ctx
  | Event.updateOne ctx _ _ _ => some ctx
  | Event.deleteOne ctx _ _ => some ctx
  | Event.find ctx _ _ => some ctx
  | Event.next ctx _ => some ctx
  | Event.decode _ => none
  | Event.err _ => none
  | Event.close ctx => some ctx

/-- The documents a trace hands to `InsertOne`, in order. -/
def insertedDocuments {Item : Type} (trace : List (Event Item)) : List (Template Item) :=
  trace.filterMap (fun ev => match ev with
    | Event.insertOne _ doc _ => some doc
    | _ => none)

/-- Whether the trace opens a cursor: a `Find` that returned no error. -/
def cursorOpened {Item : Type} (trace : List (Event Item)) : Bool :=
  trace.any (fun ev => match ev with
    | Event.find _ _ none => true
    | _ => false)

/-- Whether the trace closes the cursor: it holds a call of `cur.Close`. -/
def cursorClosed {Item : Type} (trace : List (Event Item)) : Bool :=
  trace.any (fun ev => match ev with
    | Event.close _ => true
    | _ => false)

/-! ## Concrete inputs -/

/-- Two stored templates, with string items. -/
def templateA : Template String :=
  { id := "T1", items := ["a"], created := some ⟨100, 0⟩, updated := some ⟨100, 0⟩ }

/-- The second stored template. -/
def templateB : Template String :=
  { id := "T2", items := ["a", "b"], created := some ⟨200, 0⟩, updated := some ⟨250, 5⟩ }

/-- A collection whose calls all succeed; it holds two documents, and no
document matches an update or a delete. -/
def healthyCollection : Collection String :=
  { insertOne := fun _ _ => none
    findOne := fun _ _ => Except.ok templateA
    updateOne := fun _ _ _ => Except.ok 0
    deleteOne := fun _ _ => Except.ok 0
    find := fun _ _ => Except.ok ⟨[Except.ok templateA, Except.ok templateB], none⟩ }

/-- A collection whose single-document calls all fail; its cursor opens and
yields one good document, then one that does not decode. -/
def faultyCollection : Collection String :=
  { insertOne := fun _ _ => some "connection reset"
    findOne := fun _ _ => Except.error "mongo: no documents in result"
    updateOne := fun _ _ _ => Except.error "connection reset"
    deleteOne := fun _ _ => Except.error "connection reset"
    find := fun _ _ => Except.ok ⟨[Except.ok templateA, Except.error "cannot decode"], none⟩ }

/-- A collection whose cursor yields one document and ends on an error. -/
def brokenCursorCollection : Collection String :=
  { faultyCollection with
    find := fun _ _ => Except.ok ⟨[Except.ok templateA], some "cursor killed"⟩ }

/-- A server over the healthy collection. -/
def healthyServer : templateServiceServer String := ⟨⟨fun _ _ => healthyCollection⟩⟩

/-- A server over the faulty collection. -/
def faultyServer : templateServiceServer String := ⟨⟨fun _ _ => faultyCollection⟩⟩

/-- A server over the collection whose cursor ends on an error. -/
def brokenCursorServer : templateServiceServer String :=
  ⟨⟨fun _ _ => brokenCursorCollection⟩⟩

/-- A clock that advances by one nanosecond at each reading. -/
def tickingEnv : Env :=
  { newV1 := "6ba7b810-9dad-11d1-80b4-00c04fd430c8"
    timestampNow := fun k => ⟨1700000000, k⟩ }

/-! ## Lemmas on strings -/

theorem utf8ByteSize_go_eq_zero (cs : List Char) :
    String.utf8ByteSize.go cs = 0 ↔ cs = [] := by
  cases cs with
  | nil => simp [String.utf8ByteSize.go]
  | cons c cs =>
    have h := Char.utf8Size_pos c
    simp [String.utf8ByteSize.go]
    omega

theorem utf8ByteSize_eq_zero (s : String) : s.utf8ByteSize = 0 ↔ s = "" := by
  cases s with
  | mk cs =>
    simp only [String.utf8ByteSize, utf8ByteSize_go_eq_zero]
    constructor
    · intro h; subst h; rfl
    · intro h; exact congrArg String.data h

/-- The guard passes exactly on the empty string and on `"v1"`. -/
theorem checkAPI_eq_none_iff {Item : Type} (s : templateServiceServer Item) (api : String) :
    s.checkAPI api = none ↔ api = "" ∨ api = "v1" := by
  unfold templateServiceServer.checkAPI
  by_cases h0 : api = ""
  · subst h0
    have hz : ("" : String).utf8ByteSize = 0 := (utf8ByteSize_eq_zero "").mpr rfl
    simp [hz]
  · have hpos : api.utf8ByteSize > 0 := by
      have := (utf8ByteSize_eq_zero api).not.mpr h0
      omega
    by_cases h1 : api = "v1"
    · subst h1; simp [apiVersion]
    · have h2 : ¬ ("v1" = api) := fun h => h1 h.symm
      simp [hpos, h0, h1, h2, apiVersion]

/-- On every other string the guard returns the `Unimplemented` status. -/
theorem checkAPI_reject {Item : Type} (s : templateServiceServer Item) (api : String) (h0 : api ≠ "") (h1 : api ≠ "v1") :
    s.checkAPI api = some ⟨Code.Unimplemented,
        "unsupported API version: service implements API version '" ++ apiVersion ++
          "', but asked for '" ++ api ++ "'"⟩ := by
  unfold templateServiceServer.checkAPI
  have hpos : api.utf8ByteSize > 0 := by
    have := (utf8ByteSize_eq_zero api).not.mpr h0
    omega
  have h2 : ¬ ("v1" = api) := fun h => h1 h.symm
  simp [hpos, h2, apiVersion]

/-! ## The version guard -/

/-- C1: `checkAPI` returns no error exactly when the version string is empty
or is `"v1"`; on every other string it returns an error whose code is
`Unimplemented`. -/
theorem checkAPI_contract {Item : Type} (s : templateServiceServer Item) (api : String) :
    (s.checkAPI api = none ↔ api = "" ∨ api = "v1") ∧
    (s.checkAPI api).map Status.code =
      if api = "" ∨ api = "v1" then none else some Code.Unimplemented := by
  refine ⟨checkAPI_eq_none_iff s api, ?_⟩
  by_cases h : api = "" ∨ api = "v1"
  · rw [if_pos h, (checkAPI_eq_none_iff s api).mpr h]; rfl
  · rw [if_neg h]
    have h0 : api ≠ "" := fun e => h (Or.inl e)
    have h1 : api ≠ "v1" := fun e => h (Or.inr e)
    rw [checkAPI_reject s api h0 h1]; rfl

/-- C2: on a version string that is neither empty nor `"v1"`, each of the five
handlers returns no response and the `Unimplemented` error of the guard, and
makes no store call at all: its trace is empty. -/
theorem handlers_reject_unsupported_version {Item : Type} (s : templateServiceServer Item)
    (env : Env) (ctx : Context) (api : String) (h0 : api ≠ "") (h1 : api ≠ "v1") :
    ∃ st : Status, s.checkAPI api = some st ∧ st.code = Code.Unimplemented ∧
      (∀ t, s.Create env ctx ⟨api, t⟩ = ⟨Outcome.returned none (some st), [], []⟩) ∧
      (∀ id, s.Read env ctx ⟨api, id⟩ = ⟨Outcome.returned none (some st), [], []⟩) ∧
      (∀ t, s.Update env ctx ⟨api, t⟩ = ⟨Outcome.returned none (some st), [], []⟩) ∧
      (∀ id, s.Delete env ctx ⟨api, id⟩ = ⟨Outcome.returned none (some st), [], []⟩) ∧
      s.List env ctx ⟨api⟩ = ⟨Outcome.returned none (some st), [], []⟩ := by
  have h := checkAPI_reject s api h0 h1
  refine ⟨_, h, rfl, ?_, ?_, ?_, ?_, ?_⟩
  · intro t; simp only [templateServiceServer.Create, h]
  · intro id; simp only [templateServiceServer.Read, h]
  · intro t; simp only [templateServiceServer.Update, h]
  · intro id; simp only [templateServiceServer.Delete, h]
  · simp only [templateServiceServer.List, h]

/-- Witness of C2: the version `"v2"` is rejected by every handler of the
healthy server, with no store call. -/
theorem handlers_reject_unsupported_version_witness :
    ("v2" : String) ≠ "" ∧ ("v2" : String) ≠ "v1" ∧
    ∃ st : Status, healthyServer.checkAPI "v2" = some st ∧ st.code = Code.Unimplemented ∧
      (∀ t, healthyServer.Create tickingEnv (Context.request 1) ⟨"v2", t⟩ =
        ⟨Outcome.returned none (some st), [], []⟩) ∧
      (∀ id, healthyServer.Read tickingEnv (Context.request 1) ⟨"v2", id⟩ =
        ⟨Outcome.returned none (some st), [], []⟩) ∧
      (∀ t, healthyServer.Update tickingEnv (Context.request 1) ⟨"v2", t⟩ =
        ⟨Outcome.returned none (some st), [], []⟩) ∧
      (∀ id, healthyServer.Delete tickingEnv (Context.request 1) ⟨"v2", id⟩ =
        ⟨Outcome.returned none (some st), [], []⟩) ∧
      healthyServer.List tickingEnv (Context.request 1) ⟨"v2"⟩ =
        ⟨Outcome.returned none (some st), [], []⟩ :=
  ⟨by decide, by decide,
    handlers_reject_unsupported_version healthyServer tickingEnv (Context.request 1) "v2"
      (by decide) (by decide)⟩

/-! ## Create -/

/-- C4: a `Create` that passes the guard and carries a template issues exactly
one insert, of the document whose id is the generated UUID and whose items are
the request's; the id, created and updated values of the request template have
no influence on the store call; and when the insert succeeds the response
carries `"v1"` and the id of the inserted document. -/
theorem Create_inserts_fresh_document {Item : Type} (s : templateServiceServer Item)
    (env : Env) (ctx : Context) (req : CreateRequest Item) (t : Template Item)
    (hapi : s.checkAPI req.api = none) (ht : req.template = some t) :
    ∃ (doc : Template Item) (res : Option String),
      (s.Create env ctx req).trace = [Event.insertOne ctx doc res] ∧
      res = (s.db.collection "template" "template").insertOne ctx doc ∧
      doc.id = env.newV1 ∧ doc.items = t.items ∧
      (∀ (id : String) (created updated : Option Timestamp),
        (s.Create env ctx
            ⟨req.api, some { t with id := id, created := created, updated := updated }⟩).trace =
          [Event.insertOne ctx doc res]) ∧
      (res = none → (s.Create env ctx req).outcome =
        Outcome.returned (some { api := "v1", id := doc.id }) none) := by
  refine ⟨{ id := env.newV1, items := t.items, created := some (env.timestampNow 0),
            updated := some (env.timestampNow 1) }, _, ?_, rfl, rfl, rfl, ?_, ?_⟩
  · unfold templateServiceServer.Create
    simp only [hapi, ht]
    split <;> simp_all
  · intro id created updated
    unfold templateServiceServer.Create
    simp only [hapi]
    split <;> simp_all
  · intro hres
    unfold templateServiceServer.Create
    simp only [hapi, ht, hres, apiVersion]

/-- Witness of C4: a request that supplies its own id and timestamps. -/
theorem Create_inserts_fresh_document_witness :
    ∃ (doc : Template String) (res : Option String),
      (healthyServer.Create tickingEnv (Context.request 1) ⟨"v1", some templateA⟩).trace =
        [Event.insertOne (Context.request 1) doc res] ∧
      res = (healthyServer.db.collection "template" "template").insertOne
        (Context.request 1) doc ∧
      doc.id = tickingEnv.newV1 ∧ doc.items = templateA.items ∧
      (∀ (id : String) (created updated : Option Timestamp),
        (healthyServer.Create tickingEnv (Context.request 1)
            ⟨"v1", some { templateA with id := id, created := created, updated := updated }⟩).trace =
          [Event.insertOne (Context.request 1) doc res]) ∧
      (res = none →
        (healthyServer.Create tickingEnv (Context.request 1) ⟨"v1", some templateA⟩).outcome =
          Outcome.returned (some { api := "v1", id := doc.id }) none) :=
  Create_inserts_fresh_document healthyServer tickingEnv (Context.request 1)
    ⟨"v1", some templateA⟩ templateA (by decide) rfl

/-! ## Update and Delete -/

/-- Assigning a field leaves every other field of a stored document as it was. -/
theorem Doc.lookup_setField_of_ne {Item : Type} (k k' : String) (v : Scalar Item)
    (d : Doc Item) (h : k' ≠ k) : Doc.lookup k (Doc.setField k' v d) = Doc.lookup k d := by
  induction d with
  | nil => simp [Doc.setField, Doc.lookup, h]
  | cons kv rest ih =>
    obtain ⟨k0, v0⟩ := kv
    by_cases h0 : k0 = k'
    · subst h0; simp [Doc.setField, Doc.lookup, h]
    · by_cases h1 : k0 = k
      · subst h1; simp [Doc.setField, Doc.lookup, h0]
      · simp [Doc.setField, Doc.lookup, h0, h1, ih]

/-- Assigning a field makes it hold the assigned value. -/
theorem Doc.lookup_setField_self {Item : Type} (k : String) (v : Scalar Item)
    (d : Doc Item) : Doc.lookup k (Doc.setField k v d) = some v := by
  induction d with
  | nil => simp [Doc.setField, Doc.lookup]
  | cons kv rest ih =>
    obtain ⟨k0, v0⟩ := kv
    by_cases h0 : k0 = k <;> simp [Doc.setField, Doc.lookup, h0, ih]

/-- C5: an `Update` that passes the guard and carries a template issues one
store update, whose filter matches field `id` against the request template's
id and whose `$set` document assigns exactly `items` (the request's items) and
`updated` (the current time); applied to any stored document it leaves the
fields `id` and `created` as they were. -/
theorem Update_sets_items_and_updated_only {Item : Type} (s : templateServiceServer Item)
    (env : Env) (ctx : Context) (req : UpdateRequest Item) (t : Template Item)
    (hapi : s.checkAPI req.api = none) (ht : req.template = some t) :
    ∃ (c : Context) (update : D Item) (res : Except String Int),
      (s.Update env ctx req).trace =
        [Event.updateOne c [("id", Value.scalar (Scalar.str t.id))] update res] ∧
      update = [("$set", Value.doc [("items", Scalar.items t.items),
                                    ("updated", Scalar.time (env.timestampNow 0))])] ∧
      assignedFields update = ["items", "updated"] ∧
      ∀ d : Doc Item,
        Doc.lookup "id" (Doc.applyUpdate update d) = Doc.lookup "id" d ∧
        Doc.lookup "created" (Doc.applyUpdate update d) = Doc.lookup "created" d ∧
        Doc.lookup "items" (Doc.applyUpdate update d) = some (Scalar.items t.items) ∧
        Doc.lookup "updated" (Doc.applyUpdate update d) =
          some (Scalar.time (env.timestampNow 0)) := by
  refine ⟨Context.todo, _,
    (s.db.collection "template" "template").updateOne Context.todo
      [("id", Value.scalar (Scalar.str t.id))]
      [("$set", Value.doc [("items", Scalar.items t.items),
                           ("updated", Scalar.time (env.timestampNow 0))])],
    ?_, rfl, ?_, ?_⟩
  · unfold templateServiceServer.Update
    simp only [hapi, ht]
    split <;> simp_all
  · simp [assignedFields]
  · intro d
    simp only [Doc.applyUpdate, Doc.applySet, List.foldl_cons, List.foldl_nil, if_true]
    refine ⟨?_, ?_, ?_, ?_⟩
    · rw [Doc.lookup_setField_of_ne _ _ _ _ (by decide),
        Doc.lookup_setField_of_ne _ _ _ _ (by decide)]
    · rw [Doc.lookup_setField_of_ne _ _ _ _ (by decide),
        Doc.lookup_setField_of_ne _ _ _ _ (by decide)]
    · rw [Doc.lookup_setField_of_ne _ _ _ _ (by decide), Doc.lookup_setField_self]
    · rw [Doc.lookup_setField_self]

/-- Witness of C5: an update of template `T2` on the healthy server. -/
theorem Update_sets_items_and_updated_only_witness :
    ∃ (c : Context) (update : D String) (res : Except String Int),
      (healthyServer.Update tickingEnv (Context.request 1) ⟨"v1", some templateB⟩).trace =
        [Event.updateOne c [("id", Value.scalar (Scalar.str "T2"))] update res] ∧
      update = [("$set", Value.doc [("items", Scalar.items ["a", "b"]),
                                    ("updated", Scalar.time ⟨1700000000, 0⟩)])] ∧
      assignedFields update = ["items", "updated"] ∧
      ∀ d : Doc String,
        Doc.lookup "id" (Doc.applyUpdate update d) = Doc.lookup "id" d ∧
        Doc.lookup "created" (Doc.applyUpdate update d) = Doc.lookup "created" d ∧
        Doc.lookup "items" (Doc.applyUpdate update d) = some (Scalar.items ["a", "b"]) ∧
        Doc.lookup "updated" (Doc.applyUpdate update d) =
          some (Scalar.time ⟨1700000000, 0⟩) :=
  Update_sets_items_and_updated_only healthyServer tickingEnv (Context.request 1)
    ⟨"v1", some templateB⟩ templateB (by decide) rfl

/-- C6: when the store call that `Update` (that `Delete`) issues succeeds in
the store and reports the count `n`, the handler returns the response with api
`"v1"` and that count, and no error, whatever `n` is, zero included; that one
store call is all it does. -/
theorem reported_count_is_returned {Item : Type} (s : templateServiceServer Item)
    (env : Env) (ctx : Context) (n : Int) :
    (∀ (req : UpdateRequest Item) (t : Template Item),
      s.checkAPI req.api = none → req.template = some t →
      (s.db.collection "template" "template").updateOne Context.todo
          [("id", Value.scalar (Scalar.str t.id))]
          [("$set", Value.doc [("items", Scalar.items t.items),
                               ("updated", Scalar.time (env.timestampNow 0))])] =
        Except.ok n →
      s.Update env ctx req =
        ⟨Outcome.returned (some { api := "v1", updated := n }) none,
          [Event.updateOne Context.todo
            [("id", Value.scalar (Scalar.str t.id))]
            [("$set", Value.doc [("items", Scalar.items t.items),
                                 ("updated", Scalar.time (env.timestampNow 0))])]
            (Except.ok n)],
          []⟩) ∧
    (∀ req : DeleteRequest,
      s.checkAPI req.api = none →
      (s.db.collection "template" "template").deleteOne Context.todo
          [("id", Value.scalar (Scalar.str req.id))] = Except.ok n →
      s.Delete env ctx req =
        ⟨Outcome.returned (some { api := "v1", deleted := n }) none,
          [Event.deleteOne Context.todo [("id", Value.scalar (Scalar.str req.id))]
            (Except.ok n)],
          []⟩) := by
  constructor
  · intro req t hapi ht hres
    unfold templateServiceServer.Update
    simp only [hapi, ht, hres, apiVersion]
  · intro req hapi hres
    unfold templateServiceServer.Delete
    simp only [hapi, hres, apiVersion]

/-- Witness of C6: on the healthy server no document matches, the store
reports the count zero, and both handlers answer with a count of zero. -/
theorem reported_count_is_returned_witness :
    healthyServer.Update tickingEnv (Context.request 1) ⟨"v1", some templateB⟩ =
      ⟨Outcome.returned (some { api := "v1", updated := 0 }) none,
        [Event.updateOne Context.todo
          [("id", Value.scalar (Scalar.str "T2"))]
          [("$set", Value.doc [("items", Scalar.items ["a", "b"]),
                               ("updated", Scalar.time ⟨1700000000, 0⟩)])]
          (Except.ok 0)],
        []⟩ ∧
    healthyServer.Delete tickingEnv (Context.request 1) ⟨"v1", "T9"⟩ =
      ⟨Outcome.returned (some { api := "v1", deleted := 0 }) none,
        [Event.deleteOne Context.todo [("id", Value.scalar (Scalar.str "T9"))]
          (Except.ok 0)],
        []⟩ :=
  ⟨(reported_count_is_returned healthyServer tickingEnv (Context.request 1) 0).1
      ⟨"v1", some templateB⟩ templateB (by decide) rfl rfl,
    (reported_count_is_returned healthyServer tickingEnv (Context.request 1) 0).2
      ⟨"v1", "T9"⟩ (by decide) rfl⟩

/-! ## List -/

/-- When every document decodes, the loop of `List` stores the decoded
templates in fresh consecutive cells and appends their addresses in order. -/
theorem listLoop_all_decoded {Item : Type} (ts : List (Template Item)) (st : LoopState Item) :
    (listLoop (ts.map Except.ok) st).2 = none ∧
    (listLoop (ts.map Except.ok) st).1.heap = st.heap ++ ts ∧
    (listLoop (ts.map Except.ok) st).1.list =
      st.list ++ List.range' st.heap.length ts.length := by
  induction ts generalizing st with
  | nil => simp [listLoop]
  | cons t rest ih =>
    simp only [List.map_cons, listLoop]
    obtain ⟨h1, h2, h3⟩ := ih
      { heap := st.heap ++ [t], list := st.list ++ [st.heap.length],
        trace := st.trace ++ [Event.next Context.todo true, Event.decode (Except.ok t)] }
    refine ⟨h1, ?_, ?_⟩
    · rw [h2]; simp
    · rw [h3]; simp [List.range'_succ]

/-- When some document does not decode, the loop of `List` stops on an error. -/
theorem listLoop_decode_error {Item : Type} (docs : List (Except String (Template Item)))
    (st : LoopState Item) (e : String) (h : Except.error e ∈ docs) :
    ∃ e', (listLoop docs st).2 = some e' := by
  induction docs generalizing st with
  | nil => simp at h
  | cons d rest ih =>
    cases d with
    | error e0 => exact ⟨e0, by simp [listLoop]⟩
    | ok t =>
      simp only [List.mem_cons, reduceCtorEq, false_or] at h
      simp only [listLoop]
      exact ih _ h

/-- Reading consecutive addresses from a heap gives its cells in order. -/
theorem deref_range {Item : Type} (ts : List (Template Item)) :
    deref ts (List.range' 0 ts.length) = ts.map some := by
  apply List.ext_getElem
  · simp [deref]
  · intro i h1 h2
    simp only [deref, List.length_map, List.length_range'] at h1
    simp [deref, List.getElem_range', h1]

/-- C7: on a `List` request that passes the guard, if the cursor opens, every
document decodes and the cursor reports no terminal error, the response points
to exactly the decoded templates, one distinct cell per cursor document, in the
order of the cursor; if the cursor does not open, a document does not decode
or the cursor ends on an error, the handler returns no response and an
error. -/
theorem List_returns_all_or_nothing {Item : Type} (s : templateServiceServer Item)
    (env : Env) (ctx : Context) (req : ListRequest) (hapi : s.checkAPI req.api = none) :
    (∀ (cur : Cursor Item) (ts : List (Template Item)),
      (s.db.collection "template" "template").find Context.todo
          [("", Value.scalar Scalar.null)] = Except.ok cur →
      cur.docs = ts.map Except.ok → cur.err = none →
      ∃ data : List Nat,
        (s.List env ctx req).outcome = Outcome.returned (some { api := "v1", data := data }) none ∧
        deref (s.List env ctx req).heap data = ts.map some ∧
        data.length = cur.docs.length ∧ data.Nodup) ∧
    (∀ e : String,
      (s.db.collection "template" "template").find Context.todo
          [("", Value.scalar Scalar.null)] = Except.error e →
      ∃ st : Status, (s.List env ctx req).outcome = Outcome.returned none (some st)) ∧
    (∀ cur : Cursor Item,
      (s.db.collection "template" "template").find Context.todo
          [("", Value.scalar Scalar.null)] = Except.ok cur →
      (∃ e, Except.error e ∈ cur.docs) ∨ cur.err ≠ none →
      ∃ st : Status, (s.List env ctx req).outcome = Outcome.returned none (some st)) := by
  refine ⟨?_, ?_, ?_⟩
  · intro cur ts hfind hdocs herr
    obtain ⟨h1, h2, h3⟩ := listLoop_all_decoded ts
      { heap := [], list := [],
        trace := [Event.find Context.todo [("", Value.scalar Scalar.null)] none] }
    refine ⟨List.range' 0 ts.length, ?_, ?_, ?_, ?_⟩
    · unfold templateServiceServer.List
      simp only [hapi, hfind, hdocs, herr]
      split
      · rename_i st e hl
        rw [hl] at h1; simp at h1
      · rename_i st hl
        rw [hl] at h3
        simp only [List.nil_append, List.length_nil] at h3
        simp [h3, apiVersion]
    · unfold templateServiceServer.List
      simp only [hapi, hfind, hdocs, herr]
      split
      · rename_i st e hl
        rw [hl] at h1; simp at h1
      · rename_i st hl
        rw [hl] at h2
        simp only [List.nil_append] at h2
        simp only [h2]
        exact deref_range ts
    · simp [hdocs]
    · exact List.nodup_range' 0 ts.length
  · intro e hfind
    unfold templateServiceServer.List
    simp only [hapi, hfind]
    exact ⟨_, rfl⟩
  · intro cur hfind hfail
    unfold templateServiceServer.List
    simp only [hapi, hfind]
    split
    · exact ⟨_, rfl⟩
    · rename_i st hl
      rcases hfail with ⟨e, he⟩ | herr
      · obtain ⟨e', he'⟩ := listLoop_decode_error cur.docs
          { heap := [], list := [],
            trace := [Event.find Context.todo [("", Value.scalar Scalar.null)] none] } e he
        rw [hl] at he'; simp at he'
      · split
        · exact ⟨_, rfl⟩
        · rename_i hnone; exact (herr hnone).elim

/-- Witness of C7: the healthy server lists its two templates, in order. -/
theorem List_returns_all_or_nothing_witness :
    ∃ data : List Nat,
      (healthyServer.List tickingEnv (Context.request 1) ⟨"v1"⟩).outcome =
        Outcome.returned (some { api := "v1", data := data }) none ∧
      deref (healthyServer.List tickingEnv (Context.request 1) ⟨"v1"⟩).heap data =
        [some templateA, some templateB] ∧
      data.length = 2 ∧ data.Nodup :=
  (List_returns_all_or_nothing healthyServer tickingEnv (Context.request 1) ⟨"v1"⟩
    (by decide)).1 ⟨[Except.ok templateA, Except.ok templateB], none⟩ [templateA, templateB]
    rfl rfl rfl

/-! ## Store failures -/

/-- The loop of `List` stops at the first document that does not decode, with
the error of that decode. -/
theorem listLoop_first_decode_error {Item : Type} (ts : List (Template Item)) (e : String)
    (rest : List (Except String (Template Item))) (st : LoopState Item) :
    (listLoop (ts.map Except.ok ++ Except.error e :: rest) st).2 = some e := by
  induction ts generalizing st with
  | nil => simp [listLoop]
  | cons t more ih =>
    simp only [List.map_cons, List.cons_append, listLoop]
    exact ih _

/-- C3: on a request that passes the guard, when the store call that a handler
issues fails in the store with error text `e`, the handler returns no response
and an error of code `Unknown` whose message is the fixed prefix of that call
followed by `e`.  This holds at each of the seven store steps whose error the
handlers receive: the insert of `Create`, the lookup of `Read` (a missing id
included), the update of `Update`, the delete of `Delete`, and for `List` the
cursor open, the first decode that fails, and the terminal cursor error.  The
three prefixes of `List` are pairwise different. -/
theorem store_failure_reported_as_unknown {Item : Type} (s : templateServiceServer Item)
    (env : Env) (ctx : Context) (e : String) :
    (∀ (req : CreateRequest Item) (t : Template Item),
      s.checkAPI req.api = none → req.template = some t →
      (s.db.collection "template" "template").insertOne ctx
          { id := env.newV1, items := t.items, created := some (env.timestampNow 0),
            updated := some (env.timestampNow 1) } = some e →
      (s.Create env ctx req).outcome = Outcome.returned none
        (some ⟨Code.Unknown, "failed to insert into Template.template-> " ++ e⟩)) ∧
    (∀ req : ReadRequest,
      s.checkAPI req.api = none →
      (s.db.collection "template" "template").findOne Context.todo
          [("id", Value.scalar (Scalar.str req.id))] = Except.error e →
      (s.Read env ctx req).outcome = Outcome.returned none
        (some ⟨Code.Unknown, "failed to find document-> " ++ e⟩)) ∧
    (∀ (req : UpdateRequest Item) (t : Template Item),
      s.checkAPI req.api = none → req.template = some t →
      (s.db.collection "template" "template").updateOne Context.todo
          [("id", Value.scalar (Scalar.str t.id))]
          [("$set", Value.doc [("items", Scalar.items t.items),
                               ("updated", Scalar.time (env.timestampNow 0))])] =
        Except.error e →
      (s.Update env ctx req).outcome = Outcome.returned none
        (some ⟨Code.Unknown, "failed to update document-> " ++ e⟩)) ∧
    (∀ req : DeleteRequest,
      s.checkAPI req.api = none →
      (s.db.collection "template" "template").deleteOne Context.todo
          [("id", Value.scalar (Scalar.str req.id))] = Except.error e →
      (s.Delete env ctx req).outcome = Outcome.returned none
        (some ⟨Code.Unknown, "failed to delete document-> " ++ e⟩)) ∧
    (∀ req : ListRequest,
      s.checkAPI req.api = none →
      (s.db.collection "template" "template").find Context.todo
          [("", Value.scalar Scalar.null)] = Except.error e →
      (s.List env ctx req).outcome = Outcome.returned none
        (some ⟨Code.Unknown, "failed to find documents in Template.template-> " ++ e⟩)) ∧
    (∀ (req : ListRequest) (cur : Cursor Item) (ts : List (Template Item))
        (rest : List (Except String (Template Item))),
      s.checkAPI req.api = none →
      (s.db.collection "template" "template").find Context.todo
          [("", Value.scalar Scalar.null)] = Except.ok cur →
      cur.docs = ts.map Except.ok ++ Except.error e :: rest →
      (s.List env ctx req).outcome = Outcome.returned none
        (some ⟨Code.Unknown, "failed to decode document-> " ++ e⟩)) ∧
    (∀ (req : ListRequest) (cur : Cursor Item) (ts : List (Template Item)),
      s.checkAPI req.api = none →
      (s.db.collection "template" "template").find Context.todo
          [("", Value.scalar Scalar.null)] = Except.ok cur →
      cur.docs = ts.map Except.ok → cur.err = some e →
      (s.List env ctx req).outcome = Outcome.returned none
        (some ⟨Code.Unknown, "failed reading documents-> " ++ e⟩)) ∧
    ("failed to find documents in Template.template-> " ≠ "failed to decode document-> " ∧
      "failed to find documents in Template.template-> " ≠ "failed reading documents-> " ∧
      "failed to decode document-> " ≠ "failed reading documents-> ") := by
  refine ⟨?_, ?_, ?_, ?_, ?_, ?_, ?_, by decide⟩
  · intro req t hapi ht hres
    unfold templateServiceServer.Create
    simp only [hapi, ht, hres]
  · intro req hapi hres
    unfold templateServiceServer.Read
    simp only [hapi, hres]
  · intro req t hapi ht hres
    unfold templateServiceServer.Update
    simp only [hapi, ht, hres]
  · intro req hapi hres
    unfold templateServiceServer.Delete
    simp only [hapi, hres]
  · intro req hapi hres
    unfold templateServiceServer.List
    simp only [hapi, hres]
  · intro req cur ts rest hapi hfind hdocs
    have hl := listLoop_first_decode_error ts e rest
      { heap := [], list := [],
        trace := [Event.find Context.todo [("", Value.scalar Scalar.null)] none] }
    unfold templateServiceServer.List
    simp only [hapi, hfind, hdocs]
    split
    · rename_i st e2 heq
      rw [heq] at hl
      simp only [Option.some.injEq] at hl
      rw [hl]
    · rename_i st heq
      rw [heq] at hl
      simp at hl
  · intro req cur ts hapi hfind hdocs herr
    obtain ⟨h1, _, _⟩ := listLoop_all_decoded ts
      { heap := [], list := [],
        trace := [Event.find Context.todo [("", Value.scalar Scalar.null)] none] }
    unfold templateServiceServer.List
    simp only [hapi, hfind, hdocs, herr]
    split
    · rename_i st e2 heq
      rw [heq] at h1
      simp at h1
    · rfl

/-- Witness of C3: on the faulty server, `Read` of an id that the store does
not hold fails in the store with "no documents in result", and `List` meets a
document that does not decode after one that did; both are reported with code
`Unknown` and the prefix of the failed step. -/
theorem store_failure_reported_as_unknown_witness :
    (faultyServer.Read tickingEnv (Context.request 1) ⟨"v1", "T9"⟩).outcome =
      Outcome.returned none
        (some ⟨Code.Unknown, "failed to find document-> " ++ "mongo: no documents in result"⟩) ∧
    (faultyServer.List tickingEnv (Context.request 1) ⟨"v1"⟩).outcome =
      Outcome.returned none
        (some ⟨Code.Unknown, "failed to decode document-> " ++ "cannot decode"⟩) :=
  ⟨(store_failure_reported_as_unknown faultyServer tickingEnv (Context.request 1)
      "mongo: no documents in result").2.1 ⟨"v1", "T9"⟩ (by decide) rfl,
    (store_failure_reported_as_unknown faultyServer tickingEnv (Context.request 1)
      "cannot decode").2.2.2.2.2.1 ⟨"v1"⟩
      ⟨[Except.ok templateA, Except.error "cannot decode"], none⟩ [templateA] []
      (by decide) rfl rfl⟩

/-! ## Timestamps of Create -/

/-- C8, as stated, fails: with a clock that advances between its two readings,
the document that `Create` inserts has a created timestamp different from its
updated timestamp. -/
theorem Create_created_eq_updated_fails :
    healthyServer.checkAPI "v1" = none ∧
    insertedDocuments
        (healthyServer.Create tickingEnv (Context.request 1) ⟨"v1", some templateA⟩).trace =
      [{ id := "6ba7b810-9dad-11d1-80b4-00c04fd430c8", items := ["a"],
         created := some ⟨1700000000, 0⟩, updated := some ⟨1700000000, 1⟩ }] ∧
    ¬ ∀ doc ∈ insertedDocuments
        (healthyServer.Create tickingEnv (Context.request 1) ⟨"v1", some templateA⟩).trace,
      doc.created = doc.updated := by
  refine ⟨by decide, rfl, ?_⟩
  intro h
  have h' := h { id := "6ba7b810-9dad-11d1-80b4-00c04fd430c8", items := ["a"],
                 created := some ⟨1700000000, 0⟩, updated := some ⟨1700000000, 1⟩ }
    (List.mem_singleton.mpr rfl)
  exact absurd h' (by decide)

/-- C8, amended: the document that `Create` inserts has for created timestamp
the first, and for updated timestamp the second, of two successive readings of
the clock; the two are equal exactly when both readings return the same
instant. -/
theorem Create_timestamps_are_successive_readings {Item : Type}
    (s : templateServiceServer Item) (env : Env) (ctx : Context) (req : CreateRequest Item)
    (doc : Template Item) (hapi : s.checkAPI req.api = none)
    (hdoc : doc ∈ insertedDocuments (s.Create env ctx req).trace) :
    doc.created = some (env.timestampNow 0) ∧ doc.updated = some (env.timestampNow 1) ∧
    (doc.created = doc.updated ↔ env.timestampNow 0 = env.timestampNow 1) := by
  have key : doc.created = some (env.timestampNow 0) ∧
      doc.updated = some (env.timestampNow 1) := by
    revert hdoc
    unfold templateServiceServer.Create
    simp only [hapi]
    split
    · simp [insertedDocuments]
    · split
      · simp only [insertedDocuments, List.filterMap_cons, List.filterMap_nil,
          List.mem_singleton]
        intro h; subst h; exact ⟨rfl, rfl⟩
      · simp only [insertedDocuments, List.filterMap_cons, List.filterMap_nil,
          List.mem_singleton]
        intro h; subst h; exact ⟨rfl, rfl⟩
  refine ⟨key.1, key.2, ?_⟩
  rw [key.1, key.2]
  exact Option.some_inj

/-- Witness of amended C8, at the advancing clock. -/
theorem Create_timestamps_are_successive_readings_witness :
    (some ⟨1700000000, 0⟩ : Option Timestamp) = some (tickingEnv.timestampNow 0) ∧
    (some ⟨1700000000, 1⟩ : Option Timestamp) = some (tickingEnv.timestampNow 1) ∧
    ((some ⟨1700000000, 0⟩ : Option Timestamp) = some ⟨1700000000, 1⟩ ↔
      tickingEnv.timestampNow 0 = tickingEnv.timestampNow 1) :=
  Create_timestamps_are_successive_readings healthyServer tickingEnv (Context.request 1)
    ⟨"v1", some templateA⟩
    { id := "6ba7b810-9dad-11d1-80b4-00c04fd430c8", items := ["a"],
      created := some ⟨1700000000, 0⟩, updated := some ⟨1700000000, 1⟩ }
    (by decide) (List.mem_singleton.mpr rfl)

/-! ## Cursor and context handling -/

/-- C9 fails on the code: when a document does not decode, and when the cursor
ends on an error, `List` returns with the cursor opened and never closed; the
cursor is closed only on normal completion. -/
theorem List_leaves_cursor_open_on_failure :
    (faultyServer.List tickingEnv (Context.request 1) ⟨"v1"⟩).outcome =
      Outcome.returned none
        (some ⟨Code.Unknown, "failed to decode document-> cannot decode"⟩) ∧
    cursorOpened (faultyServer.List tickingEnv (Context.request 1) ⟨"v1"⟩).trace = true ∧
    cursorClosed (faultyServer.List tickingEnv (Context.request 1) ⟨"v1"⟩).trace = false ∧
    (brokenCursorServer.List tickingEnv (Context.request 1) ⟨"v1"⟩).outcome =
      Outcome.returned none
        (some ⟨Code.Unknown, "failed reading documents-> cursor killed"⟩) ∧
    cursorOpened (brokenCursorServer.List tickingEnv (Context.request 1) ⟨"v1"⟩).trace = true ∧
    cursorClosed (brokenCursorServer.List tickingEnv (Context.request 1) ⟨"v1"⟩).trace = false ∧
    cursorClosed (healthyServer.List tickingEnv (Context.request 1) ⟨"v1"⟩).trace = true :=
  ⟨rfl, rfl, rfl, rfl, rfl, rfl, rfl⟩

/-- C10 fails on the code: called with the request context number 7, `Create`
hands that context to `InsertOne`, but `Update` and `Delete` hand the fresh
`context.TODO()` to `UpdateOne` and `DeleteOne`. -/
theorem Update_Delete_drop_request_context :
    (healthyServer.Create tickingEnv (Context.request 7) ⟨"v1", some templateA⟩).trace.map
        Event.context = [some (Context.request 7)] ∧
    (healthyServer.Update tickingEnv (Context.request 7) ⟨"v1", some templateA⟩).trace.map
        Event.context = [some Context.todo] ∧
    (healthyServer.Delete tickingEnv (Context.request 7) ⟨"v1", "T1"⟩).trace.map
        Event.context = [some Context.todo] ∧
    Context.todo ≠ Context.request 7 :=
  ⟨rfl, rfl, rfl, by decide⟩

end TemplateService
